import Mathlib

/-!
Shallow embedding of the session/identity core of the slash link-sharing
service (Go sources under `server/route/api/v1/` and collaborators), together
with theorems settling the specification claims about it.

External collaborators (the `golang-jwt` library, `bcrypt`, the relational
store) are modelled as explicit Lean functions; code of the service itself is
translated declaration by declaration from the Go source.
-/

namespace Slash

/-- Model of `store.Role` (`store/user.go`): user roles. -/
inductive Role where
  | RoleAdmin
  | RoleUser
deriving DecidableEq, Repr

/-- Model of `storepb.RowStatus`: lifecycle status of a user row. -/
inductive RowStatus where
  | NORMAL
  | ARCHIVED
deriving DecidableEq, Repr

/-- Model of `store.User`: the identity record. Timestamps held by the store
are omitted because no modelled operation reads them. -/
structure User where
  id : Int
  email : String
  nickname : String
  passwordHash : String
  role : Role
  rowStatus : RowStatus
deriving DecidableEq, Repr

/-- gRPC status codes used by the service (`google.golang.org/grpc/codes`). -/
inductive Code where
  | OK
  | InvalidArgument
  | NotFound
  | Internal
  | PermissionDenied
  | FailedPrecondition
  | Unauthenticated
deriving DecidableEq, Repr

/-- A `status.Errorf(code, msg)` error value. -/
structure StatusError where
  code : Code
  message : String
deriving DecidableEq, Repr

/-- Constant `unmatchedEmailAndPasswordError` from `auth_service.go`. -/
def unmatchedEmailAndPasswordError : String := "unmatched email and password"

/- ## Token codec (JWT model)

The service signs and validates JWTs through `github.com/golang-jwt/jwt/v5`.
A wire token is modelled structurally: header, claims and signature. The
serialization of a token to its compact string form is injective, so equality
of structural tokens models equality of raw token strings. -/

/-- JWT header: the `alg` field and the optional `kid` field. A `kid` that is
present but not a string behaves exactly like an absent one in the source
(`t.Header["kid"].(string)` type assertion fails), so it is modelled as
`none`. -/
structure JwtHeader where
  alg : String
  kid : Option String
deriving DecidableEq, Repr

/-- Model of `ClaimsMessage` (registered JWT claims as used by the service):
subject email, user id, issued-at, and optional expires-at, in unix seconds. -/
structure ClaimsMessage where
  sub : String
  userId : Int
  issuedAt : Int
  expiresAt : Option Int
deriving DecidableEq, Repr

/-- A structural JWT: header, claims, signature. -/
structure JwtToken where
  header : JwtHeader
  claims : ClaimsMessage
  signature : String
deriving DecidableEq, Repr

/-- Serialization of an optional string field for the signed part. -/
def optFieldStr : Option String → String
  | none => "absent"
  | some s => "present:" ++ s

/-- Serialization of an optional integer field for the signed part. -/
def optFieldInt : Option Int → String
  | none => "absent"
  | some i => "present:" ++ toString i

/-- Serialization of the signed part of a token (header plus claims). Used as
the message input of the MAC; injectivity of this encoding is not needed by
any claim below. -/
def signingInput (h : JwtHeader) (c : ClaimsMessage) : String :=
  "alg=" ++ h.alg ++ ";kid=" ++ optFieldStr h.kid ++
  ";sub=" ++ c.sub ++ ";uid=" ++ toString c.userId ++
  ";iat=" ++ toString c.issuedAt ++ ";exp=" ++ optFieldInt c.expiresAt

/-- Model of the external HMAC-SHA-256 primitive: a keyed MAC, embedded as a
concrete encoding of key and message. No claim below depends on any
cryptographic property of it. -/
def hmacSHA256 (key msg : String) : String :=
  "hmac-sha256(" ++ key ++ "," ++ msg ++ ")"

/-- The key function passed to `jwt.ParseWithClaims` in
`ListUserAccessTokens` and `CreateUserAccessToken`
(`workspace_service.go`, lines 417-427 and 473-483): reject any signing
method other than HS256; release the secret only for header `kid = "v1"`;
reject a missing or different `kid`. -/
def accessTokenKeyfunc (secret : String) (t : JwtToken) : Except String String :=
  if t.header.alg ≠ "HS256" then
    Except.error "unexpected access token signing method"
  else
    match t.header.kid with
    | some kid =>
        if kid = "v1" then Except.ok secret
        else Except.error "unexpected access token kid"
    | none => Except.error "unexpected access token kid"

/-- Model of `jwt.ParseWithClaims` (golang-jwt v5, external library): obtain
the key from the key function (a key-function error fails the parse), verify
the HMAC signature over the signed part, then validate the registered claims
— a present `exp` in the past (`now` at or after `exp`) fails with a
token-expired error; an absent `exp` never expires. -/
def jwtParseWithClaims (now : Int) (tok : JwtToken)
    (keyfunc : JwtToken → Except String String) : Except String ClaimsMessage :=
  match keyfunc tok with
  | Except.error e => Except.error e
  | Except.ok key =>
      if tok.signature ≠ hmacSHA256 key (signingInput tok.header tok.claims) then
        Except.error "signature is invalid"
      else
        match tok.claims.expiresAt with
        | some exp => if exp ≤ now then Except.error "token is expired" else Except.ok tok.claims
        | none => Except.ok tok.claims

/- ## Access token registry

Stored access-token records live in a per-user settings blob
(`storepb.UserSetting_AccessTokensSetting`); each record is a raw signed
token string plus a description. Raw strings are modelled by structural
tokens (serialization being injective), so record equality models raw-string
equality. -/

/-- Model of `storepb.UserSetting_AccessTokensSetting_AccessToken`. -/
structure AccessTokenRecord where
  accessToken : JwtToken
  description : String
deriving DecidableEq, Repr

/-- Model of `v1pb.UserAccessToken`: a record as returned by the list
endpoint, with issued-at/expires-at re-derived from the decoded claims. -/
structure UserAccessTokenView where
  accessToken : JwtToken
  description : String
  issuedAt : Int
  expiresAt : Option Int
deriving DecidableEq, Repr

/-- The construction loop of `ListUserAccessTokens`
(`workspace_service.go`, lines 414-442): parse each stored token with the
access-token key function; on any parse error skip the record; otherwise emit
a view with issued-at and optional expires-at taken from the decoded claims. -/
def buildAccessTokenViews (secret : String) (now : Int)
    (stored : List AccessTokenRecord) : List UserAccessTokenView :=
  stored.filterMap fun r =>
    match jwtParseWithClaims now r.accessToken (accessTokenKeyfunc secret) with
    | Except.error _ => none
    | Except.ok claims =>
        some { accessToken := r.accessToken
               description := r.description
               issuedAt := claims.issuedAt
               expiresAt := claims.expiresAt }

/-- The comparator passed to `slices.SortFunc` at `workspace_service.go`
line 445-447: `int(i.IssuedAt.Seconds - j.IssuedAt.Seconds)`. -/
def accessTokenCmp (i j : UserAccessTokenView) : Int :=
  i.issuedAt - j.issuedAt

/-- Insert an element into a list sorted per a three-way comparator
(negative means the first argument sorts earlier). -/
def insertByCmp {α : Type} (cmp : α → α → Int) (a : α) : List α → List α
  | [] => [a]
  | b :: bs => if cmp a b < 0 then a :: b :: bs else b :: insertByCmp cmp a bs

/-- Model of `slices.SortFunc`: sort a list into the order determined by a
three-way comparator (an element with negative comparison sorts earlier).
Implemented as insertion sort; for the comparator above, which never returns
0 on distinct keys used in the theorems below, any conforming sort produces
the same output. -/
def sortFunc {α : Type} (cmp : α → α → Int) : List α → List α
  | [] => []
  | a :: as => insertByCmp cmp a (sortFunc cmp as)

/-- `ListUserAccessTokens` scoped to one user's stored list
(`workspace_service.go`, lines 409-452): read the stored records, build the
pruned views, sort them with the comparator, and return them. The operation
returns the stored list unchanged as its second component: the source
performs no `UpsertUserSetting` (no write) on this path. -/
def listUserAccessTokensOp (secret : String) (now : Int)
    (stored : List AccessTokenRecord) :
    List UserAccessTokenView × List AccessTokenRecord :=
  (sortFunc accessTokenCmp (buildAccessTokenViews secret now stored), stored)

/-- The filtering loop of `DeleteUserAccessToken`
(`workspace_service.go`, lines 513-519): rebuild the list, skipping every
record whose raw token string equals the requested one. Translated as the
source writes it, an accumulating left fold. -/
def deleteAccessTokenLoop (requested : JwtToken)
    (stored : List AccessTokenRecord) : List AccessTokenRecord :=
  stored.foldl
    (fun acc r => if r.accessToken = requested then acc else acc ++ [r]) []

/-- `DeleteUserAccessToken` scoped to one user's stored list
(`workspace_service.go`, lines 504-533): read the stored records, rebuild the
list without the matching records, and write the whole rebuilt list back
(the result is the new stored list). -/
def deleteUserAccessTokenOp (requested : JwtToken)
    (stored : List AccessTokenRecord) : List AccessTokenRecord :=
  deleteAccessTokenLoop requested stored

/- ## Session orchestrator state and collaborators -/

/-- Model of the workspace security setting
(`storepb.WorkspaceSetting_SecuritySetting`). -/
structure WorkspaceSecuritySetting where
  disallowUserRegistration : Bool
  disallowPasswordAuth : Bool
deriving DecidableEq, Repr

/-- Model of `storepb.IdentityProvider_Type`. -/
inductive IdpType where
  | TYPE_UNSPECIFIED
  | OAUTH2
deriving DecidableEq, Repr

/-- Model of `storepb.IdentityProviderConfig_FieldMapping`. -/
structure FieldMapping where
  identifier : String
  displayName : String
deriving DecidableEq, Repr

/-- Model of `storepb.IdentityProviderConfig_OAuth2Config`. -/
structure OAuth2Config where
  clientId : String
  clientSecret : String
  authUrl : String
  tokenUrl : String
  userInfoUrl : String
  scopes : List String
  fieldMapping : FieldMapping
deriving DecidableEq, Repr

/-- Model of `storepb.IdentityProvider` (and of its wire twin
`v1pb.IdentityProvider`, which has the same fields). The config oneof is an
`Option`: `GetOauth2()` on a non-OAuth2 or absent config returns nil, which
is `none` here. -/
structure IdentityProvider where
  id : String
  title : String
  type : IdpType
  config : Option OAuth2Config
deriving DecidableEq, Repr

/-- The server-side state read and written by the modelled operations:
the user table with its id sequence, the per-user access-token settings
blobs, the security setting, the identity-provider setting, the license
oracle's answers, and the signing secret. -/
structure ServerState where
  users : List User
  nextUserId : Int
  userAccessTokens : List (Int × List AccessTokenRecord)
  security : WorkspaceSecuritySetting
  identityProviderSetting : Option (List IdentityProvider)
  licenseUnlimitedAccounts : Bool
  licenseSSO : Bool
  licenseSeats : Int
  secret : String
deriving DecidableEq, Repr

/-- Model of `Store.GetUser` filtered by email: the first user whose email
matches, if any. -/
def getUserByEmail (users : List User) (email : String) : Option User :=
  users.find? fun u => u.email = email

/-- Model of `Store.CreateUser` (see `store` and the SQL driver): insert a
row with the given fields, the store assigning the next id and a NORMAL row
status, and return the created user. -/
def storeCreateUser (st : ServerState) (email nickname passwordHash : String)
    (role : Role) : User × ServerState :=
  let u : User :=
    { id := st.nextUserId, email := email, nickname := nickname,
      passwordHash := passwordHash, role := role, rowStatus := RowStatus.NORMAL }
  (u, { st with users := st.users ++ [u], nextUserId := st.nextUserId + 1 })

/-- Model of `Store.GetUserAccessTokens`: the stored list in the user's
settings blob, empty when the blob is absent. -/
def getUserAccessTokens (st : ServerState) (uid : Int) : List AccessTokenRecord :=
  match st.userAccessTokens.find? (fun p => p.1 = uid) with
  | some p => p.2
  | none => []

/-- Model of `Store.UpsertUserSetting` for the access-tokens key: replace the
user's settings blob wholesale (or create it). -/
def setUserAccessTokens (st : ServerState) (uid : Int)
    (l : List AccessTokenRecord) : ServerState :=
  { st with userAccessTokens :=
      if st.userAccessTokens.any (fun p => p.1 = uid) then
        st.userAccessTokens.map (fun p => if p.1 = uid then (uid, l) else p)
      else
        st.userAccessTokens ++ [(uid, l)] }

/-- Model of the external `bcrypt.GenerateFromPassword` at the default cost:
an injective one-way-hash stand-in; no claim depends on its cryptographic
properties. -/
def bcryptGenerateFromPassword (password : String) : String :=
  "bcrypt-10$" ++ password

/-- Modelled from the spec: `GenerateAccessToken` (the Token Codec's `Issue`
operation, whose definition is not under the provided sources; spec 4.2): the
header declares HS256 and key-version "v1"; the claims carry the subject
email, the user id, issued-at now and, only when a non-zero expiry was
requested (`none` models Go's zero `time.Time`), the expires-at; the token is
HMAC-signed with the secret. -/
def GenerateAccessToken (email : String) (userId : Int) (expiresAt : Option Int)
    (now : Int) (secret : String) : JwtToken :=
  let h : JwtHeader := { alg := "HS256", kid := some "v1" }
  let c : ClaimsMessage :=
    { sub := email, userId := userId, issuedAt := now, expiresAt := expiresAt }
  { header := h, claims := c, signature := hmacSHA256 secret (signingInput h c) }

/-- Modelled from the spec: the fixed session-cookie-name constant (spec 6;
its definition is not under the provided sources, and no claim depends on its
concrete value). -/
def AccessTokenCookieName : String := "slash.access-token"

/-- Modelled from the spec: the bounded interactive-session expiry constant
(not under the provided sources; no claim depends on its concrete value). -/
def AccessTokenDuration : Int := 7 * 24 * 3600

/-- Compact serialization of a structural token, standing in for the raw
token string. -/
def serializeJwt (t : JwtToken) : String :=
  signingInput t.header t.claims ++ "." ++ t.signature

/-- `UpsertAccessTokenToStore` (`workspace_service.go`, lines 535-557): read
the user's stored token list, append the new record, write the whole list
back. -/
def upsertAccessTokenToStore (st : ServerState) (user : User)
    (accessToken : JwtToken) (description : String) : ServerState :=
  let l := getUserAccessTokens st user.id
  setUserAccessTokens st user.id
    (l ++ [{ accessToken := accessToken, description := description }])

/-- `doSignIn` (`auth_service.go`, lines 201-218): mint a session token for
the user, persist it with description "user login", and emit the session
cookie (the RFC1123 formatting of the cookie expiry is modelled as the plain
unix-seconds number; no claim reads it). -/
def doSignIn (now : Int) (st : ServerState) (user : User) (expireTime : Int) :
    ServerState × String :=
  let accessToken := GenerateAccessToken user.email user.id (some expireTime) now st.secret
  let st1 := upsertAccessTokenToStore st user accessToken "user login"
  (st1, AccessTokenCookieName ++ "=" ++ serializeJwt accessToken ++
    "; Path=/; Expires=" ++ toString (now + AccessTokenDuration) ++
    "; HttpOnly; SameSite=Strict")

/-- `checkSeatAvailability` (`auth_service.go`, lines 230-242): when the
unlimited-accounts feature is not enabled, count users and reject with a
failed-precondition error when the count is at or above the seat count. -/
def seatLimitError (seats : Int) : StatusError :=
  { code := Code.FailedPrecondition,
    message := "maximum number of users " ++ toString seats ++ " reached" }

def checkSeatAvailability (st : ServerState) : Except StatusError Unit :=
  if ¬ st.licenseUnlimitedAccounts then
    if (st.users.length : Int) ≥ st.licenseSeats then
      Except.error (seatLimitError st.licenseSeats)
    else
      Except.ok ()
  else
    Except.ok ()

/- ## Session orchestrator transitions -/

/-- `SignIn` (`auth_service.go`, lines 39-69). The external
`bcrypt.CompareHashAndPassword` is passed in as the comparison oracle
`bcryptCompareOK` (true means the comparison succeeded), so every theorem
below holds for the real bcrypt. Failure paths return the state unchanged. -/
def signIn (bcryptCompareOK : String → String → Bool) (now : Int)
    (st : ServerState) (email password : String) :
    Except StatusError User × ServerState :=
  match getUserByEmail st.users email with
  | none =>
      (Except.error ⟨Code.InvalidArgument, unmatchedEmailAndPasswordError⟩, st)
  | some user =>
      if ¬ bcryptCompareOK user.passwordHash password then
        (Except.error ⟨Code.InvalidArgument, unmatchedEmailAndPasswordError⟩, st)
      else if st.security.disallowPasswordAuth ∧ user.role = Role.RoleUser then
        (Except.error ⟨Code.PermissionDenied, "password authentication is not allowed"⟩, st)
      else if user.rowStatus = RowStatus.ARCHIVED then
        (Except.error ⟨Code.PermissionDenied, "user has been archived"⟩, st)
      else
        (Except.ok user, (doSignIn now st user (now + AccessTokenDuration)).1)

/-- `SignUp` (`auth_service.go`, lines 156-199): reject when registration is
disallowed; enforce the seat limit; hash the password; assign role Admin
exactly when the user table is empty, else role User; create the user, then
perform the sign-in sequence. -/
def signUp (now : Int) (st : ServerState) (email nickname password : String) :
    Except StatusError User × ServerState :=
  if st.security.disallowUserRegistration then
    (Except.error ⟨Code.PermissionDenied, "sign up is not allowed"⟩, st)
  else
    match checkSeatAvailability st with
    | Except.error e => (Except.error e, st)
    | Except.ok _ =>
        let passwordHash := bcryptGenerateFromPassword password
        let role := if st.users.length = 0 then Role.RoleAdmin else Role.RoleUser
        let created := storeCreateUser st email nickname passwordHash role
        (Except.ok created.1,
         (doSignIn now created.2 created.1 (now + AccessTokenDuration)).1)

/-- `CreateUser` (`workspace_service.go`, lines 334-354): hash the password,
enforce the seat limit, and create the user always with role User. No
first-user promotion happens on this path. -/
def createUser (st : ServerState) (email nickname password : String) :
    Except StatusError User × ServerState :=
  let passwordHash := bcryptGenerateFromPassword password
  match checkSeatAvailability st with
  | Except.error e => (Except.error e, st)
  | Except.ok _ =>
      let created := storeCreateUser st email nickname passwordHash Role.RoleUser
      (Except.ok created.1, created.2)

/-- `SignOut` (`auth_service.go`, lines 220-228): emit the Set-Cookie header
with an empty token value and the fixed past expiry, and touch nothing
else — the returned state is the input state, as the source performs no store
call on this path. -/
def signOut (st : ServerState) : String × ServerState :=
  (AccessTokenCookieName ++
    "=; Path=/; Expires=Thu, 01 Jan 1970 00:00:00 GMT; HttpOnly; SameSite=Strict",
   st)

/- ## SSO sign-in -/

/-- Model of `idp.IdentityProviderUserInfo`. -/
structure IdentityProviderUserInfo where
  identifier : String
  displayName : String
deriving DecidableEq, Repr

/-- Outcome of the two external OAuth2 network calls (token exchange and
user-info fetch) for one request, supplied as an oracle: the adapter code
performing them lives outside the service core and does blocking network
I/O. -/
inductive OAuth2Oracle where
  | exchangeFailed (e : String)
  | userInfoFailed (e : String)
  | fetched (info : IdentityProviderUserInfo)
deriving DecidableEq, Repr

/-- An all-zero-values OAuth2 config, standing in for proto getters applied
to an absent config. -/
def defaultOAuth2Config : OAuth2Config :=
  { clientId := "", clientSecret := "", authUrl := "", tokenUrl := "",
    userInfoUrl := "", scopes := [],
    fieldMapping := { identifier := "", displayName := "" } }

/-- Modelled from the spec: `oauth2.NewIdentityProvider` construction-time
validation (its implementation is not under the provided sources; spec 4.3
and 6, and `oauth2_test.go`): fail fast with the exact message naming the
first missing required field, else succeed. -/
def newOAuth2IdentityProvider (c : OAuth2Config) : Except String OAuth2Config :=
  if c.tokenUrl = "" then
    Except.error "the field \"tokenUrl\" is empty but required"
  else if c.userInfoUrl = "" then
    Except.error "the field \"userInfoUrl\" is empty but required"
  else if c.fieldMapping.identifier = "" then
    Except.error "the field \"fieldMapping.identifier\" is empty but required"
  else
    Except.ok c

/-- Modelled from the spec: `util.ValidateEmail` (not under the provided
sources): the identifier must be a well-formed email. The model requires one
"@" with nonempty sides; its precision is not load-bearing for any claim. -/
def validateEmail (s : String) : Bool :=
  match s.splitOn "@" with
  | [lp, dp] => decide (lp ≠ "" ∧ dp ≠ "")
  | _ => false

/-- Result of `SignInWithSSO`: success, a gRPC error, or the Go runtime nil
pointer dereference that reading `userInfo.Identifier` performs when the
user-info record was never produced. -/
inductive SSOOutcome where
  | okUser (u : User)
  | failed (e : StatusError)
  | nilPointerDereference
deriving DecidableEq, Repr

/-- The tail of `SignInWithSSO` from the archived-user check on
(`auth_service.go`, lines 146-153). -/
def ssoFinish (now : Int) (st : ServerState) (user : User) :
    SSOOutcome × ServerState :=
  if user.rowStatus = RowStatus.ARCHIVED then
    (SSOOutcome.failed ⟨Code.PermissionDenied, "user has been archived"⟩, st)
  else
    (SSOOutcome.okUser user, (doSignIn now st user (now + AccessTokenDuration)).1)

/-- The part of `SignInWithSSO` after the user-info record is in hand
(`auth_service.go`, lines 112-153): validate the identifier as an email, look
the user up, auto-provision a role-User account behind the seat check when
absent (with an unguessable random password, supplied here as the oracle
value `randomPassword`), then finish. -/
def ssoCompleteSignIn (randomPassword : String) (now : Int) (st : ServerState)
    (info : IdentityProviderUserInfo) : SSOOutcome × ServerState :=
  let email := info.identifier
  if ¬ validateEmail email then
    (SSOOutcome.failed ⟨Code.InvalidArgument, "invalid email address"⟩, st)
  else
    match getUserByEmail st.users email with
    | some user => ssoFinish now st user
    | none =>
        match checkSeatAvailability st with
        | Except.error e => (SSOOutcome.failed e, st)
        | Except.ok _ =>
            let passwordHash := bcryptGenerateFromPassword randomPassword
            let created := storeCreateUser st email info.displayName passwordHash Role.RoleUser
            ssoFinish now created.2 created.1

/-- `SignInWithSSO` (`auth_service.go`, lines 71-154): gate on the SSO
feature flag; resolve the identity-provider setting and the provider with the
requested id; only for an OAuth2-typed provider construct the adapter and run
the two network calls, producing the user-info record; then read
`userInfo.Identifier` — which for any other provider type dereferences the
still-nil record. -/
def signInWithSSO (oracle : OAuth2Oracle) (randomPassword : String) (now : Int)
    (st : ServerState) (idpId : String) : SSOOutcome × ServerState :=
  if ¬ st.licenseSSO then
    (SSOOutcome.failed ⟨Code.PermissionDenied, "SSO is not available in the current plan"⟩, st)
  else
    match st.identityProviderSetting with
    | none =>
        (SSOOutcome.failed ⟨Code.InvalidArgument, "identity provider not found"⟩, st)
    | some idps =>
        match idps.find? (fun p => p.id = idpId) with
        | none =>
            (SSOOutcome.failed ⟨Code.InvalidArgument, "identity provider not found"⟩, st)
        | some identityProvider =>
            if identityProvider.type = IdpType.OAUTH2 then
              match newOAuth2IdentityProvider
                  (identityProvider.config.getD defaultOAuth2Config) with
              | Except.error e =>
                  (SSOOutcome.failed
                    ⟨Code.Internal, "failed to create oauth2 identity provider, err: " ++ e⟩, st)
              | Except.ok _ =>
                  match oracle with
                  | OAuth2Oracle.exchangeFailed e =>
                      (SSOOutcome.failed ⟨Code.Internal, "failed to exchange token, err: " ++ e⟩, st)
                  | OAuth2Oracle.userInfoFailed e =>
                      (SSOOutcome.failed ⟨Code.Internal, "failed to get user info, err: " ++ e⟩, st)
                  | OAuth2Oracle.fetched info =>
                      ssoCompleteSignIn randomPassword now st info
            else
              (SSOOutcome.nilPointerDereference, st)

/- ## Workspace setting retrieval (`GetWorkspaceSetting`) -/

/-- A stored workspace-setting row as returned by
`Store.ListWorkspaceSettings`: one constructor per setting key read by
`GetWorkspaceSetting` (`workspace_service.go`, lines 53-78). Branding is a
byte blob in the source, modelled as a string. -/
inductive WorkspaceSettingEntry where
  | general (branding : String) (customStyle : String)
  | security (s : WorkspaceSecuritySetting)
  | shortcutRelated (defaultVisibility : Int)
  | identityProvider (idps : List IdentityProvider)
deriving DecidableEq, Repr

/-- The `v1pb.WorkspaceSetting` response message. The identity-provider list
is an `Option` because the proto field stays nil unless the identity-provider
setting row exists. -/
structure WorkspaceSettingResponse where
  branding : String
  customStyle : String
  disallowUserRegistration : Bool
  disallowPasswordAuth : Bool
  defaultVisibility : Int
  identityProviders : Option (List IdentityProvider)
deriving DecidableEq, Repr

/-- The zero-valued response message the handler starts from. -/
def emptyWorkspaceSettingResponse : WorkspaceSettingResponse :=
  { branding := "", customStyle := "", disallowUserRegistration := false,
    disallowPasswordAuth := false, defaultVisibility := 0,
    identityProviders := none }

/-- `convertIdentityProviderFromStore` (`workspace_service.go`, lines
216-249): copy every field; a non-OAuth2 config converts to nil. -/
def convertIdentityProviderFromStore (p : IdentityProvider) : IdentityProvider :=
  { id := p.id, title := p.title, type := p.type,
    config :=
      match p.config with
      | some c =>
          some { clientId := c.clientId, clientSecret := c.clientSecret,
                 authUrl := c.authUrl, tokenUrl := c.tokenUrl,
                 userInfoUrl := c.userInfoUrl, scopes := c.scopes,
                 fieldMapping := { identifier := c.fieldMapping.identifier,
                                   displayName := c.fieldMapping.displayName } }
      | none => none }

/-- The redaction condition at `workspace_service.go` line 70:
`currentUser == nil || currentUser.Role != store.RoleAdmin`. -/
def callerIsRedacted (currentUser : Option User) : Bool :=
  match currentUser with
  | none => true
  | some u => decide (u.role ≠ Role.RoleAdmin)

/-- The redaction at `workspace_service.go` lines 71-74: blank the OAuth2
client secret when an OAuth2 config is present; a nil config is left as
is. -/
def redactClientSecret (p : IdentityProvider) : IdentityProvider :=
  { p with config := p.config.map fun c => { c with clientSecret := "" } }

/-- One iteration of the inner identity-provider loop
(`workspace_service.go`, lines 68-77): convert, then redact for a nil or
non-Admin caller. -/
def processIdentityProvider (currentUser : Option User)
    (sp : IdentityProvider) : IdentityProvider :=
  let p := convertIdentityProviderFromStore sp
  if callerIsRedacted currentUser then redactClientSecret p else p

/-- One iteration of the settings loop (`workspace_service.go`, lines
53-79). -/
def applyWorkspaceSettingEntry (currentUser : Option User)
    (resp : WorkspaceSettingResponse) :
    WorkspaceSettingEntry → WorkspaceSettingResponse
  | WorkspaceSettingEntry.general b cs =>
      { resp with branding := b, customStyle := cs }
  | WorkspaceSettingEntry.security s =>
      { resp with disallowUserRegistration := s.disallowUserRegistration,
                  disallowPasswordAuth := s.disallowPasswordAuth }
  | WorkspaceSettingEntry.shortcutRelated v =>
      { resp with defaultVisibility := v }
  | WorkspaceSettingEntry.identityProvider idps =>
      { resp with
          identityProviders := some (idps.map (processIdentityProvider currentUser)) }

/-- `GetWorkspaceSetting` (`workspace_service.go`, lines 43-81): fold the
stored setting rows into the response, redacting OAuth2 client secrets for a
nil or non-Admin caller. -/
def getWorkspaceSetting (currentUser : Option User)
    (settings : List WorkspaceSettingEntry) : WorkspaceSettingResponse :=
  settings.foldl (applyWorkspaceSettingEntry currentUser)
    emptyWorkspaceSettingResponse

/-- Erase every stored OAuth2 client secret in a settings list: the
observational equivalence class of stores that differ only in those
secrets. -/
def eraseEntrySecrets : WorkspaceSettingEntry → WorkspaceSettingEntry
  | WorkspaceSettingEntry.identityProvider idps =>
      WorkspaceSettingEntry.identityProvider (idps.map redactClientSecret)
  | e => e

def eraseSettingSecrets (settings : List WorkspaceSettingEntry) :
    List WorkspaceSettingEntry :=
  settings.map eraseEntrySecrets

/-- Whether an `Except` computation failed. -/
def exceptFails {ε α : Type} : Except ε α → Bool
  | Except.error _ => true
  | Except.ok _ => false

/-- The last identity-provider setting row in a stored settings list, if any:
since the response loop overwrites the field on every such row, this is what
the response ends up holding. -/
def lastIdpEntry : List WorkspaceSettingEntry → Option (List IdentityProvider)
  | [] => none
  | e :: rest =>
      match lastIdpEntry rest with
      | some l => some l
      | none =>
          match e with
          | WorkspaceSettingEntry.identityProvider idps => some idps
          | _ => none

/- ## Concrete sample values used by witnesses and counterexamples -/

def sampleHeaderWrongKid : JwtHeader := { alg := "HS256", kid := some "v2" }

def sampleClaims : ClaimsMessage :=
  { sub := "a@x.com", userId := 1, issuedAt := 100, expiresAt := none }

/-- A token with header key-version "v2", signed with the correct secret. -/
def sampleTokenWrongKid : JwtToken :=
  { header := sampleHeaderWrongKid, claims := sampleClaims,
    signature := hmacSHA256 "test-secret" (signingInput sampleHeaderWrongKid sampleClaims) }

/-- A valid non-expiring token issued at 100. -/
def sampleTokenIssued100 : JwtToken := GenerateAccessToken "a@x.com" 1 none 100 "k"

/-- A valid non-expiring token issued at 200. -/
def sampleTokenIssued200 : JwtToken := GenerateAccessToken "a@x.com" 1 none 200 "k"

/-- A stored list holding two valid tokens, oldest first. -/
def sampleStoredTwoValid : List AccessTokenRecord :=
  [{ accessToken := sampleTokenIssued100, description := "first" },
   { accessToken := sampleTokenIssued200, description := "second" }]

/-- A record whose token will be deleted. -/
def sampleRecordDup : AccessTokenRecord :=
  { accessToken := sampleTokenIssued100, description := "dup" }

/-- A server state with no users, registration allowed, unlimited accounts. -/
def emptyServerState : ServerState :=
  { users := [], nextUserId := 1, userAccessTokens := [],
    security := { disallowUserRegistration := false, disallowPasswordAuth := false },
    identityProviderSetting := none, licenseUnlimitedAccounts := true,
    licenseSSO := false, licenseSeats := 5, secret := "k" }

/-- The user the first SignUp on the empty state creates. -/
def sampleFirstUser : User :=
  { id := 1, email := "first@x.com", nickname := "first",
    passwordHash := bcryptGenerateFromPassword "pw",
    role := Role.RoleAdmin, rowStatus := RowStatus.NORMAL }

/-- The state after the first SignUp on the empty state. -/
def stateAfterFirstSignUp : ServerState :=
  (signUp 0 emptyServerState "first@x.com" "first" "pw").2

/-- A stored user for the SignIn conflation witness. -/
def sampleStoredUser : User :=
  { id := 1, email := "e@x.com", nickname := "e",
    passwordHash := bcryptGenerateFromPassword "right-password",
    role := Role.RoleUser, rowStatus := RowStatus.NORMAL }

/-- A server state holding exactly `sampleStoredUser`. -/
def stateWithStoredUser : ServerState :=
  { emptyServerState with users := [sampleStoredUser], nextUserId := 2 }

/-- A full workspace: one user, one licensed seat, unlimited accounts off. -/
def fullSeatState : ServerState :=
  { emptyServerState with
      users := [sampleStoredUser], nextUserId := 2,
      licenseUnlimitedAccounts := false, licenseSeats := 1 }

/-- An empty workspace with one licensed seat, unlimited accounts off. -/
def oneFreeSeatState : ServerState :=
  { emptyServerState with licenseUnlimitedAccounts := false, licenseSeats := 1 }

/-- A configured identity provider whose type is not OAuth2. -/
def sampleNonOAuth2Provider : IdentityProvider :=
  { id := "idp-1", title := "legacy", type := IdpType.TYPE_UNSPECIFIED, config := none }

/-- A server state with SSO licensed and one non-OAuth2 provider. -/
def ssoNonOAuth2State : ServerState :=
  { emptyServerState with
      licenseSSO := true,
      identityProviderSetting := some [sampleNonOAuth2Provider] }

/-- A stored OAuth2 identity provider carrying a secret. -/
def sampleOAuth2Provider : IdentityProvider :=
  { id := "idp-2", title := "oauth", type := IdpType.OAUTH2,
    config := some { clientId := "cid", clientSecret := "s3cret",
                     authUrl := "https://a", tokenUrl := "https://t",
                     userInfoUrl := "https://u", scopes := ["openid"],
                     fieldMapping := { identifier := "email", displayName := "name" } } }

/-- A stored workspace-settings list with one identity-provider row. -/
def sampleSettingsWithProvider : List WorkspaceSettingEntry :=
  [WorkspaceSettingEntry.identityProvider [sampleOAuth2Provider]]

/-- An admin user, as the caller of `GetWorkspaceSetting`. -/
def sampleAdminCaller : User :=
  { id := 7, email := "admin@x.com", nickname := "admin",
    passwordHash := bcryptGenerateFromPassword "apw",
    role := Role.RoleAdmin, rowStatus := RowStatus.NORMAL }

/- ## Theorems -/

/-- C1: token validation rejects hostile tokens by header inspection — for
every access token whose header algorithm is not HMAC-SHA-256, or whose
header key-version (`kid`) is anything other than the literal "v1" (including
absent), validation with the access-token key function fails and no claims
are returned, even when the token is signed with the correct secret. -/
theorem hostile_token_rejected (secret : String) (now : Int) (tok : JwtToken)
    (hbad : tok.header.alg ≠ "HS256" ∨ tok.header.kid ≠ some "v1")
    (_hsig : tok.signature = hmacSHA256 secret (signingInput tok.header tok.claims)) :
    exceptFails (jwtParseWithClaims now tok (accessTokenKeyfunc secret)) = true := by
  by_cases halg : tok.header.alg = "HS256"
  · have hkid : tok.header.kid ≠ some "v1" := hbad.resolve_left (not_not_intro halg)
    cases hk : tok.header.kid with
    | none =>
        simp [jwtParseWithClaims, accessTokenKeyfunc, halg, hk, exceptFails]
    | some k =>
        have hkv : k ≠ "v1" := fun h => hkid (by rw [hk, h])
        simp [jwtParseWithClaims, accessTokenKeyfunc, halg, hk, hkv, exceptFails]
  · simp [jwtParseWithClaims, accessTokenKeyfunc, halg, exceptFails]

/-- Witness for C1: a concrete token with key-version "v2", correctly signed
with the secret, is rejected. -/
theorem hostile_token_rejected_witness :
    exceptFails (jwtParseWithClaims 0 sampleTokenWrongKid (accessTokenKeyfunc "test-secret")) = true :=
  hostile_token_rejected "test-secret" 0 sampleTokenWrongKid (Or.inr (by decide)) rfl

/-- C9: for every SignInWithSSO request that resolves a configured identity
provider whose type is not OAuth2, the user-info record is never produced and
the unguarded read of its identifier dereferences nil: the operation ends in
the nil-pointer-dereference outcome, with no state change. -/
theorem sso_non_oauth2_nil_dereference (oracle : OAuth2Oracle)
    (randomPassword : String) (now : Int) (st : ServerState) (idpId : String)
    (idps : List IdentityProvider) (p : IdentityProvider)
    (hsso : st.licenseSSO = true)
    (hset : st.identityProviderSetting = some idps)
    (hfind : idps.find? (fun q => q.id = idpId) = some p)
    (htype : p.type ≠ IdpType.OAUTH2) :
    signInWithSSO oracle randomPassword now st idpId =
      (SSOOutcome.nilPointerDereference, st) := by
  simp [signInWithSSO, hsso, hset, hfind, htype]

/-- Witness for C9: a concrete state with a non-OAuth2 provider reaches the
nil dereference. -/
theorem sso_non_oauth2_nil_dereference_witness :
    signInWithSSO (OAuth2Oracle.exchangeFailed "down") "rnd" 0 ssoNonOAuth2State "idp-1" =
      (SSOOutcome.nilPointerDereference, ssoNonOAuth2State) :=
  sso_non_oauth2_nil_dereference (OAuth2Oracle.exchangeFailed "down") "rnd" 0
    ssoNonOAuth2State "idp-1" [sampleNonOAuth2Provider] sampleNonOAuth2Provider
    rfl rfl (by decide) (by decide)

/-- C8: SignOut only clears the client cookie — the emitted Set-Cookie header
carries the fixed past expiry `Thu, 01 Jan 1970 00:00:00 GMT`, the returned
state is exactly the input state, and in particular every user's persisted
access-token list is unchanged, so no token is revoked. -/
theorem signOut_clears_cookie_only (st : ServerState) :
    (signOut st).2 = st ∧
    (∀ uid, getUserAccessTokens (signOut st).2 uid = getUserAccessTokens st uid) ∧
    ∃ pre post, (signOut st).1 =
      pre ++ "Expires=Thu, 01 Jan 1970 00:00:00 GMT" ++ post :=
  ⟨rfl, fun _ => rfl,
   AccessTokenCookieName ++ "=; Path=/; ", "; HttpOnly; SameSite=Strict", rfl⟩

/-- C5: anti-enumeration conflation — the SignIn failure outcome when no user
with the given email exists is identical (same status code, same message) to
the outcome when the user exists but the password comparison fails, for every
password-comparison oracle. -/
theorem signIn_conflates_missing_user_and_wrong_password
    (verify : String → String → Bool) (now1 now2 : Int) (st1 st2 : ServerState)
    (email1 password1 email2 password2 : String) (u : User)
    (h1 : getUserByEmail st1.users email1 = none)
    (h2 : getUserByEmail st2.users email2 = some u)
    (h3 : verify u.passwordHash password2 = false) :
    (signIn verify now1 st1 email1 password1).1 =
      (signIn verify now2 st2 email2 password2).1 ∧
    (signIn verify now1 st1 email1 password1).1 =
      Except.error { code := Code.InvalidArgument,
                     message := unmatchedEmailAndPasswordError } := by
  constructor
  · simp [signIn, h1, h2, h3]
  · simp [signIn, h1]

/-- Witness for C5: with a comparator rejecting the supplied password, the
missing-user outcome on an empty store equals the wrong-password outcome
against a present user. -/
theorem signIn_conflates_witness :
    (signIn (fun _ _ => false) 0 emptyServerState "e@x.com" "pw").1 =
      (signIn (fun _ _ => false) 0 stateWithStoredUser "e@x.com" "wrong").1 ∧
    (signIn (fun _ _ => false) 0 emptyServerState "e@x.com" "pw").1 =
      Except.error { code := Code.InvalidArgument,
                     message := unmatchedEmailAndPasswordError } :=
  signIn_conflates_missing_user_and_wrong_password (fun _ _ => false) 0 0
    emptyServerState stateWithStoredUser "e@x.com" "pw" "e@x.com" "wrong"
    sampleStoredUser rfl (by decide) rfl

/-- C3 (evaluation of the code at the failing input): with two stored valid
tokens issued at 100 and 200, the list operation returns them ascending by
issued-at, oldest first — not descending (most recent first) as both the
claim and the source's own comment state. -/
theorem list_sorts_ascending_at_failing_input :
    ((listUserAccessTokensOp "k" 1000 sampleStoredTwoValid).1.map
        UserAccessTokenView.issuedAt) = [100, 200] ∧
    ([100, 200] : List Int) ≠ [200, 100] := by
  constructor
  · rfl
  · decide

/-- Accumulator form of the `DeleteUserAccessToken` rebuild loop: the fold
appends exactly the records whose token differs from the requested one. -/
theorem deleteLoop_foldl_filter (t : JwtToken) (l : List AccessTokenRecord)
    (acc : List AccessTokenRecord) :
    l.foldl (fun acc r => if r.accessToken = t then acc else acc ++ [r]) acc =
      acc ++ l.filter (fun r => decide (r.accessToken ≠ t)) := by
  induction l generalizing acc with
  | nil => simp
  | cons r rs ih =>
      by_cases h : r.accessToken = t
      · simp [List.foldl_cons, h, ih]
      · simp [List.foldl_cons, h, ih]

/-- C4 counterexample: a stored list holding the same raw token twice; Delete
removes both occurrences, not only the first, so the claimed result (one
surviving record) is wrong. -/
theorem delete_removes_later_duplicates_too :
    deleteUserAccessTokenOp sampleTokenIssued100 [sampleRecordDup, sampleRecordDup] = [] ∧
    deleteUserAccessTokenOp sampleTokenIssued100 [sampleRecordDup, sampleRecordDup] ≠
      [sampleRecordDup] := by
  constructor
  · rfl
  · decide

/-- C4 (amended): for every stored list, Delete removes every record whose
raw token string equals the argument — the surviving records are exactly
those with a different raw token, in their original order, and this whole
rebuilt list is what gets written back. -/
theorem deleteUserAccessToken_removes_every_match (requested : JwtToken)
    (stored : List AccessTokenRecord) :
    deleteUserAccessTokenOp requested stored =
      stored.filter (fun r => decide (r.accessToken ≠ requested)) := by
  simpa [deleteUserAccessTokenOp, deleteAccessTokenLoop] using
    deleteLoop_foldl_filter requested stored []

/-- Membership is invariant under comparator insertion. -/
theorem mem_insertByCmp {α : Type} (cmp : α → α → Int) (x a : α) (l : List α) :
    a ∈ insertByCmp cmp x l ↔ a = x ∨ a ∈ l := by
  induction l with
  | nil => simp [insertByCmp]
  | cons b bs ih =>
      by_cases h : cmp x b < 0
      · simp [insertByCmp, h]
      · simp only [insertByCmp, if_neg h, List.mem_cons, ih]
        tauto

/-- Membership is invariant under the comparator sort. -/
theorem mem_sortFunc {α : Type} (cmp : α → α → Int) (a : α) (l : List α) :
    a ∈ sortFunc cmp l ↔ a ∈ l := by
  induction l with
  | nil => simp [sortFunc]
  | cons x xs ih => simp [sortFunc, mem_insertByCmp, ih]

/-- C7: registry pruning is read-only — the list operation leaves the stored
list untouched (no write happens), and its result holds exactly the records
whose stored token passes current validation, with issued-at and expires-at
re-derived from the decoded claims; invalid records are omitted without
error and survive in storage. -/
theorem list_prunes_read_only (secret : String) (now : Int)
    (stored : List AccessTokenRecord) :
    (listUserAccessTokensOp secret now stored).2 = stored ∧
    ∀ v, v ∈ (listUserAccessTokensOp secret now stored).1 ↔
      ∃ r, r ∈ stored ∧ ∃ c,
        jwtParseWithClaims now r.accessToken (accessTokenKeyfunc secret) = Except.ok c ∧
        v = { accessToken := r.accessToken, description := r.description,
              issuedAt := c.issuedAt, expiresAt := c.expiresAt } := by
  refine ⟨rfl, fun v => ?_⟩
  show v ∈ sortFunc accessTokenCmp (buildAccessTokenViews secret now stored) ↔ _
  rw [mem_sortFunc, buildAccessTokenViews, List.mem_filterMap]
  constructor
  · rintro ⟨r, hr, hf⟩
    refine ⟨r, hr, ?_⟩
    cases hp : jwtParseWithClaims now r.accessToken (accessTokenKeyfunc secret) with
    | error e => rw [hp] at hf; simp at hf
    | ok c =>
        rw [hp] at hf
        simp only [Option.some.injEq] at hf
        exact ⟨c, rfl, hf.symm⟩
  · rintro ⟨r, hr, c, hp, hv⟩
    exact ⟨r, hr, by rw [hp, hv]⟩

/-- Sign-in bookkeeping only touches the access-token settings blob, never
the user table. -/
theorem doSignIn_users (now : Int) (st : ServerState) (user : User) (t : Int) :
    ((doSignIn now st user t).1).users = st.users := rfl

/-- C2 (amended): SignUp assigns role Admin exactly when the user set is
empty at creation time and role User otherwise, appends the created user,
and (alone among the user-creation paths) preserves the invariant that at
least one Admin exists once any user exists. -/
theorem signUp_first_user_admin (now : Int) (st : ServerState)
    (email nickname password : String) (u : User) (st2 : ServerState)
    (h : signUp now st email nickname password = (Except.ok u, st2)) :
    (u.role = Role.RoleAdmin ↔ st.users = []) ∧
    st2.users = st.users ++ [u] ∧
    ((st.users ≠ [] → ∃ a ∈ st.users, a.role = Role.RoleAdmin) →
      (st2.users ≠ [] → ∃ a ∈ st2.users, a.role = Role.RoleAdmin)) := by
  unfold signUp at h
  by_cases hreg : st.security.disallowUserRegistration = true
  · simp [hreg] at h
  · rw [if_neg hreg] at h
    cases hseat : checkSeatAvailability st with
    | error e => rw [hseat] at h; simp at h
    | ok unit1 =>
        rw [hseat] at h
        simp only [storeCreateUser, Prod.mk.injEq, Except.ok.injEq] at h
        obtain ⟨hu, hst2⟩ := h
        have husers : st2.users = st.users ++ [u] := by
          rw [← hst2, doSignIn_users, ← hu]
        have hrole : u.role = (if st.users.length = 0 then Role.RoleAdmin else Role.RoleUser) := by
          rw [← hu]
        refine ⟨?_, husers, ?_⟩
        · cases hus : st.users with
          | nil => simp [hus, hrole]
          | cons x xs => simp [hus, hrole]
        · intro hinv hne
          cases hus : st.users with
          | nil =>
              refine ⟨u, ?_, ?_⟩
              · rw [husers, hus]; simp
              · rw [hrole, hus]; rfl
          | cons x xs =>
              obtain ⟨a, ha, har⟩ := hinv (by rw [hus]; simp)
              exact ⟨a, by rw [husers]; exact List.mem_append_left _ ha, har⟩

/-- Witness for C2: the first SignUp on the empty workspace creates the Admin
user and preserves the invariant. -/
theorem signUp_first_user_admin_witness :
    (sampleFirstUser.role = Role.RoleAdmin ↔ emptyServerState.users = []) ∧
    stateAfterFirstSignUp.users = emptyServerState.users ++ [sampleFirstUser] ∧
    ((emptyServerState.users ≠ [] →
        ∃ a ∈ emptyServerState.users, a.role = Role.RoleAdmin) →
      (stateAfterFirstSignUp.users ≠ [] →
        ∃ a ∈ stateAfterFirstSignUp.users, a.role = Role.RoleAdmin)) :=
  signUp_first_user_admin 0 emptyServerState "first@x.com" "first" "pw"
    sampleFirstUser stateAfterFirstSignUp rfl

/-- C2 counterexample: from the empty user set, the CreateUser path succeeds
and provisions a role-User account, leaving a nonempty user set that contains
no Admin — so not every user-creation path preserves the claimed
invariant. -/
theorem createUser_breaks_admin_invariant :
    exceptFails (createUser emptyServerState "b@x.com" "b" "pw").1 = false ∧
    ((createUser emptyServerState "b@x.com" "b" "pw").2).users ≠ [] ∧
    ((createUser emptyServerState "b@x.com" "b" "pw").2).users.all
      (fun a => decide (a.role ≠ Role.RoleAdmin)) = true := by
  refine ⟨rfl, by decide, by decide⟩

/-- C6: seat gating — with unlimited accounts disabled and the user count at
or above the seat count, the seat check yields the failed-precondition
capacity error, SignUp fails with it leaving the state (hence the user set)
unchanged, and the SSO auto-provision segment fails with it likewise; with
the count strictly below the seat count the check passes; with unlimited
accounts enabled it always passes. -/
theorem seat_gating (now : Int) (st : ServerState)
    (email nickname password randomPassword : String)
    (info : IdentityProviderUserInfo) :
    (st.licenseUnlimitedAccounts = false →
      st.licenseSeats ≤ (st.users.length : Int) →
      checkSeatAvailability st = Except.error (seatLimitError st.licenseSeats) ∧
      (st.security.disallowUserRegistration = false →
        signUp now st email nickname password =
          (Except.error (seatLimitError st.licenseSeats), st)) ∧
      (validateEmail info.identifier = true →
        getUserByEmail st.users info.identifier = none →
        ssoCompleteSignIn randomPassword now st info =
          (SSOOutcome.failed (seatLimitError st.licenseSeats), st))) ∧
    ((st.users.length : Int) < st.licenseSeats →
      checkSeatAvailability st = Except.ok ()) ∧
    (st.licenseUnlimitedAccounts = true →
      checkSeatAvailability st = Except.ok ()) := by
  refine ⟨fun hU hge => ?_, fun hlt => ?_, fun hU => ?_⟩
  · have hc : checkSeatAvailability st = Except.error (seatLimitError st.licenseSeats) := by
      simp [checkSeatAvailability, hU, hge]
    refine ⟨hc, fun hreg => ?_, fun hmail hnone => ?_⟩
    · simp [signUp, hreg, hc]
    · simp [ssoCompleteSignIn, hmail, hnone, hc]
  · by_cases hU : st.licenseUnlimitedAccounts = true
    · simp [checkSeatAvailability, hU]
    · simp [checkSeatAvailability, hU, not_le.mpr hlt]
  · simp [checkSeatAvailability, hU]

/-- Witness for C6: on a one-seat workspace holding one user SignUp fails
with the capacity error and changes nothing; on the empty one-seat workspace
and under unlimited accounts the check passes. -/
theorem seat_gating_witness :
    signUp 0 fullSeatState "n@x.com" "n" "pw" =
      (Except.error (seatLimitError 1), fullSeatState) ∧
    checkSeatAvailability oneFreeSeatState = Except.ok () ∧
    checkSeatAvailability emptyServerState = Except.ok () := by
  refine ⟨?_, ?_, ?_⟩
  · exact ((seat_gating 0 fullSeatState "n@x.com" "n" "pw" "rp"
      { identifier := "i@x.com", displayName := "i" }).1 rfl (by decide)).2.1 rfl
  · exact (seat_gating 0 oneFreeSeatState "n@x.com" "n" "pw" "rp"
      { identifier := "i@x.com", displayName := "i" }).2.1 (by decide)
  · exact (seat_gating 0 emptyServerState "n@x.com" "n" "pw" "rp"
      { identifier := "i@x.com", displayName := "i" }).2.2 rfl

/-- The store-to-wire identity-provider conversion copies every field. -/
theorem convertIdentityProviderFromStore_id (p : IdentityProvider) :
    convertIdentityProviderFromStore p = p := by
  obtain ⟨pid, ptitle, ptype, pconfig⟩ := p
  cases pconfig with
  | none => rfl
  | some c =>
      obtain ⟨a1, a2, a3, a4, a5, a6, fm⟩ := c
      obtain ⟨f1, f2⟩ := fm
      rfl

/-- Redacting an already redacted provider changes nothing. -/
theorem redactClientSecret_idem (p : IdentityProvider) :
    redactClientSecret (redactClientSecret p) = redactClientSecret p := by
  obtain ⟨pid, ptitle, ptype, pconfig⟩ := p
  cases pconfig <;> rfl

/-- The per-provider processing is conversion-free redaction (or the
identity for an Admin caller). -/
theorem processIdentityProvider_eq (caller : Option User) (sp : IdentityProvider) :
    processIdentityProvider caller sp =
      if callerIsRedacted caller then redactClientSecret sp else sp := by
  simp [processIdentityProvider, convertIdentityProviderFromStore_id]

/-- A provider processed for a redacted caller carries a blank client
secret. -/
theorem processIdentityProvider_blank_secret (caller : Option User)
    (hred : callerIsRedacted caller = true) (sp : IdentityProvider)
    (c : OAuth2Config)
    (hc : (processIdentityProvider caller sp).config = some c) :
    c.clientSecret = "" := by
  rw [processIdentityProvider_eq, hred, if_pos rfl] at hc
  obtain ⟨pid, ptitle, ptype, pconfig⟩ := sp
  cases pconfig with
  | none => simp [redactClientSecret] at hc
  | some c0 =>
      simp only [redactClientSecret, Option.map_some', Option.some.injEq] at hc
      rw [← hc]

/-- The identity-provider field of the response is the processed content of
the last identity-provider setting row, and keeps the initial value when no
such row exists. -/
theorem getWorkspaceSetting_foldl_idps (caller : Option User)
    (settings : List WorkspaceSettingEntry) (resp : WorkspaceSettingResponse) :
    (settings.foldl (applyWorkspaceSettingEntry caller) resp).identityProviders =
      (lastIdpEntry settings).elim resp.identityProviders
        (fun idps => some (idps.map (processIdentityProvider caller))) := by
  induction settings generalizing resp with
  | nil => rfl
  | cons e rest ih =>
      rw [List.foldl_cons, ih]
      cases hrest : lastIdpEntry rest with
      | some l => simp [lastIdpEntry, hrest]
      | none => cases e <;> simp [lastIdpEntry, hrest, applyWorkspaceSettingEntry]

/-- For a redacted caller, one settings row produces the same response
contribution as its secret-erased form. -/
theorem applyEntry_erase (caller : Option User)
    (hred : callerIsRedacted caller = true) (resp : WorkspaceSettingResponse)
    (e : WorkspaceSettingEntry) :
    applyWorkspaceSettingEntry caller resp (eraseEntrySecrets e) =
      applyWorkspaceSettingEntry caller resp e := by
  cases e with
  | general b cs => rfl
  | security s => rfl
  | shortcutRelated v => rfl
  | identityProvider idps =>
      have hone : ∀ sp, processIdentityProvider caller (redactClientSecret sp) =
          processIdentityProvider caller sp := by
        intro sp
        rw [processIdentityProvider_eq, processIdentityProvider_eq, hred]
        simp [redactClientSecret_idem]
      simp only [eraseEntrySecrets, applyWorkspaceSettingEntry, List.map_map]
      have : (processIdentityProvider caller ∘ redactClientSecret) =
          processIdentityProvider caller := funext hone
      rw [this]

/-- For a redacted caller the whole response depends only on the
secret-erased settings. -/
theorem getWorkspaceSetting_erase (caller : Option User)
    (hred : callerIsRedacted caller = true)
    (settings : List WorkspaceSettingEntry) :
    getWorkspaceSetting caller (eraseSettingSecrets settings) =
      getWorkspaceSetting caller settings := by
  unfold getWorkspaceSetting eraseSettingSecrets
  generalize emptyWorkspaceSettingResponse = resp
  induction settings generalizing resp with
  | nil => rfl
  | cons e rest ih =>
      rw [List.map_cons, List.foldl_cons, List.foldl_cons,
        applyEntry_erase caller hred, ih]

/-- C10: OAuth2 client-secret redaction — for an anonymous or non-Admin
caller every OAuth2 config in the returned identity-provider list has an
empty client secret, and the whole response is independent of the stored
secrets (two stores equal after secret erasure yield the same response);
an Admin caller receives the stored providers unredacted. -/
theorem getWorkspaceSetting_redacts_client_secret (caller : Option User)
    (settings : List WorkspaceSettingEntry) :
    (callerIsRedacted caller = true →
      (∀ l, (getWorkspaceSetting caller settings).identityProviders = some l →
        ∀ p ∈ l, ∀ c, p.config = some c → c.clientSecret = "") ∧
      (∀ settings2, eraseSettingSecrets settings = eraseSettingSecrets settings2 →
        getWorkspaceSetting caller settings = getWorkspaceSetting caller settings2)) ∧
    (callerIsRedacted caller = false →
      (getWorkspaceSetting caller settings).identityProviders =
        lastIdpEntry settings) := by
  constructor
  · intro hred
    constructor
    · intro l hl p hp c hc
      rw [getWorkspaceSetting,
        getWorkspaceSetting_foldl_idps caller settings emptyWorkspaceSettingResponse] at hl
      cases hrest : lastIdpEntry settings with
      | none => rw [hrest] at hl; simp [emptyWorkspaceSettingResponse] at hl
      | some idps =>
          rw [hrest] at hl
          simp only [Option.elim, Option.some.injEq] at hl
          rw [← hl] at hp
          obtain ⟨sp, _hsp, hpsp⟩ := List.mem_map.mp hp
          exact processIdentityProvider_blank_secret caller hred sp c (by rw [hpsp]; exact hc)
    · intro settings2 h
      calc getWorkspaceSetting caller settings
          = getWorkspaceSetting caller (eraseSettingSecrets settings) :=
            (getWorkspaceSetting_erase caller hred settings).symm
        _ = getWorkspaceSetting caller (eraseSettingSecrets settings2) := by rw [h]
        _ = getWorkspaceSetting caller settings2 :=
            getWorkspaceSetting_erase caller hred settings2
  · intro hred
    rw [getWorkspaceSetting,
      getWorkspaceSetting_foldl_idps caller settings emptyWorkspaceSettingResponse]
    cases hrest : lastIdpEntry settings with
    | none => rfl
    | some idps =>
        simp only [Option.elim, Option.some.injEq]
        have : ∀ sp, processIdentityProvider caller sp = sp := by
          intro sp
          rw [processIdentityProvider_eq, hred]
          simp
        rw [funext this]
        simp

/-- Witness for C10: in the concrete store holding one OAuth2 provider with
secret "s3cret", the anonymous caller's response carries the provider with
the client secret blanked. -/
theorem getWorkspaceSetting_redacts_witness :
    ∃ c, (processIdentityProvider none sampleOAuth2Provider).config = some c ∧
      c.clientSecret = "" := by
  refine ⟨{ clientId := "cid", clientSecret := "", authUrl := "https://a",
            tokenUrl := "https://t", userInfoUrl := "https://u",
            scopes := ["openid"],
            fieldMapping := { identifier := "email", displayName := "name" } },
          rfl, ?_⟩
  exact ((getWorkspaceSetting_redacts_client_secret none sampleSettingsWithProvider).1
      rfl).1
    [processIdentityProvider none sampleOAuth2Provider] rfl
    (processIdentityProvider none sampleOAuth2Provider) (by simp) _ rfl

end Slash
